import Mathlib

/-!
Shallow embedding of the `fs-b1-node-blog-app` repository (an Express/Mongoose
blog application with several near-duplicate variants) and proofs about its
authentication, registration, OTP, route-guard and content-store behaviour.

Variants embedded here:
* `src/index.js` — the main Mongoose variant with local + Google login
  (shared almost verbatim with `src/unnamed/part_003`);
* `src/unnamed/part_003` — an older variant whose Google verify callback only
  invokes its completion callback inside the user-not-found branch;
* `src/unnamed/part_001` — a Mongoose variant with no authentication at all;
* `src/unnamed/part_002` (first file) — the phone-OTP variant with Twilio,
  an in-memory `OTP_STORE`, and a session flag `isPhoneVerified`;
* `src/unnamed/part_002` (second file) — the in-memory variant that stores
  posts in a plain array with no validation and no sessions.

Databases are embedded as lists of records; Mongoose `findOne` is `List.find?`
in insertion order; `save` enforces the schema's `required`/`unique`
constraints (per the schema declarations and spec §3: usernames unique,
google ids unique among present values) and appends. JavaScript's
`OTP_STORE` object is an association list with JS assignment/delete
semantics. Machine-level details (ObjectId values) are elided: records are
addressed by their unique keys, and Mongoose-assigned ids are modelled by a
fresh-id counter in the blog store.
-/

/-- Modelled from the spec: the external Password Verifier (the `bcryptjs`
library, which is not part of this repository). Spec §2: "one-way hash +
compare primitive (external library capability)". A hash is an opaque value
determined by the hashed password; the salt (`bcrypt.genSalt(10)`), whose only
use is to feed `bcrypt.hash`, is absorbed into the abstraction. -/
inductive Hash where
  | bcrypt (password : String)
deriving DecidableEq

/-- Modelled from the spec: `bcrypt.hash(password, salt)`. -/
def bcryptHash (password : String) : Hash := .bcrypt password

/-- Modelled from the spec: `bcrypt.compare(password, hash)` succeeds exactly
when the hash was derived from the supplied password. -/
def bcryptCompare (password : String) (h : Hash) : Bool :=
  match h with
  | .bcrypt p => p == password

/-- A user record of `src/index.js` / `part_003` / `part_001`
(`userSchema`): `username` (required, unique), `password` (optional: Google
users have none), `googleId` (optional, unique when present). Timestamps are
elided: no claim mentions them. -/
structure User where
  username : String
  password : Option Hash
  googleId : Option String
deriving DecidableEq

/-- Save/validation errors surfaced by the storage layer: MongoDB duplicate
key (`err.code === 11000`, handled explicitly in `part_002`'s register
handler) and Mongoose schema validation failure. -/
inductive SaveError where
  | duplicateKey
  | validationFailed
deriving DecidableEq

/-- Whether some stored user already has this username (`username` is
`unique: true` in every variant's `userSchema`). -/
def usernameTaken (db : List User) (username : String) : Bool :=
  db.any (fun u => u.username == username)

/-- Whether some stored user already has this google id (`googleId` is
`unique: true`; per spec §3 the id is "unique, nullable", so only present
values collide). -/
def googleIdTaken (db : List User) (googleId : String) : Bool :=
  db.any (fun u => u.googleId == some googleId)

/-- Mongoose `new User(...).save()`: validates `required` fields, enforces
the unique indexes, then inserts. -/
def saveUser (db : List User) (u : User) : Except SaveError (List User) :=
  if u.username.isEmpty then .error .validationFailed
  else if usernameTaken db u.username then .error .duplicateKey
  else
    match u.googleId with
    | some g => if googleIdTaken db g then .error .duplicateKey else .ok (db ++ [u])
    | none => .ok (db ++ [u])

/-- Mongoose `User.findOne({ username })`: first stored record with the
username, in insertion order. -/
def findUserByUsername (db : List User) (username : String) : Option User :=
  db.find? (fun u => u.username == username)

/-- Mongoose `User.findOne({ googleId: profile.id })`. -/
def findUserByGoogleId (db : List User) (googleId : String) : Option User :=
  db.find? (fun u => u.googleId == some googleId)

/-- Outcome of a passport verify callback: `done(null, false, {message})`,
`done(null, user)`, or `done(err)`. -/
inductive LocalAuthResult where
  | failure (message : String)
  | success (user : User)
  | error
deriving DecidableEq

/-- The LocalStrategy verify callback of `src/index.js` lines 113-137 (same
code in `part_002` lines 73-86 and `part_003` lines 58-72): look up the user
by username; absent users fail with "Incorrect username."; then
`bcrypt.compare` against the stored hash; a stored record without a password
(a Google-created user) makes `bcrypt.compare` reject, which the `catch`
turns into `done(err)`; a mismatch fails with "Incorrect password.";
a match succeeds with the user. -/
def localVerify (db : List User) (username password : String) : LocalAuthResult :=
  match findUserByUsername db username with
  | none => .failure "Incorrect username."
  | some user =>
    match user.password with
    | none => .error
    | some h =>
      if bcryptCompare password h then .success user else .failure "Incorrect password."

/-- The passport session of the main variant: `serializeUser` stores the
user's identity key; `none` is an unauthenticated session. Users are
addressed here by their unique username (spec §3: "a user record is uniquely
addressable by at least one of {username, provider id}"); the Mongo-internal
`_id` is elided. -/
structure Session where
  user : Option String
deriving DecidableEq

/-- HTTP-level outcomes produced by the handlers under study. -/
inductive HttpResponse where
  | redirect (path : String)
  | badRequest (error : String)
  | okJson (message : String)
  | serverError (error : String)
deriving DecidableEq

/-- POST /login of `src/index.js` lines 269-277:
`passport.authenticate("local", { successRedirect: "/compose",
failureRedirect: "/login" })` around the LocalStrategy verify callback. On
`done(null, user)` passport logs the user into the session and redirects to
/compose; on `done(null, false, ...)` it redirects to /login leaving the
session untouched; on `done(err)` the error propagates (HTTP 500). -/
def loginPost (db : List User) (sess : Session) (username password : String) :
    HttpResponse × Session :=
  match localVerify db username password with
  | .success user => (.redirect "/compose", { user := some user.username })
  | .failure _ => (.redirect "/login", sess)
  | .error => (.serverError "authentication error", sess)

/-- C1: local login: a missing username fails with NotFound ("Incorrect
username."); a present user whose stored hash does not match the supplied
password fails with InvalidCredential ("Incorrect password."); a match
authenticates the session bound to that user's identity. -/
theorem C1_local_login (db : List User) (sess : Session) (username password : String) :
    (findUserByUsername db username = none →
      localVerify db username password = .failure "Incorrect username." ∧
      loginPost db sess username password = (.redirect "/login", sess)) ∧
    (∀ u h, findUserByUsername db username = some u → u.password = some h →
      bcryptCompare password h = false →
      localVerify db username password = .failure "Incorrect password." ∧
      loginPost db sess username password = (.redirect "/login", sess)) ∧
    (∀ u h, findUserByUsername db username = some u → u.password = some h →
      bcryptCompare password h = true →
      localVerify db username password = .success u ∧
      loginPost db sess username password = (.redirect "/compose", { user := some u.username })) := by
  refine ⟨fun hnone => ?_, fun u h hfind hpw hcmp => ?_, fun u h hfind hpw hcmp => ?_⟩
  · constructor
    · simp [localVerify, hnone]
    · simp [loginPost, localVerify, hnone]
  · constructor
    · simp [localVerify, hfind, hpw, hcmp]
    · simp [loginPost, localVerify, hfind, hpw, hcmp]
  · constructor
    · simp [localVerify, hfind, hpw, hcmp]
    · simp [loginPost, localVerify, hfind, hpw, hcmp]

/-- A concrete one-user database for exercising the login claims. -/
def loginDb : List User :=
  [{ username := "alice", password := some (bcryptHash "pw"), googleId := none }]

/-- C1 witness: on a concrete database, the right password authenticates,
the wrong password and the unknown username are both turned away. -/
theorem C1_local_login_witness :
    (localVerify loginDb "bob" "pw" = .failure "Incorrect username." ∧
      loginPost loginDb { user := none } "bob" "pw" = (.redirect "/login", { user := none })) ∧
    (localVerify loginDb "alice" "bad" = .failure "Incorrect password." ∧
      loginPost loginDb { user := none } "alice" "bad" = (.redirect "/login", { user := none })) ∧
    (localVerify loginDb "alice" "pw" =
        .success { username := "alice", password := some (bcryptHash "pw"), googleId := none } ∧
      loginPost loginDb { user := none } "alice" "pw" =
        (.redirect "/compose", { user := some "alice" })) := by
  refine ⟨?_, ?_, ?_⟩
  · exact (C1_local_login loginDb { user := none } "bob" "pw").1 (by decide)
  · exact (C1_local_login loginDb { user := none } "alice" "bad").2.1
      { username := "alice", password := some (bcryptHash "pw"), googleId := none }
      (bcryptHash "pw") (by decide) rfl (by decide)
  · exact (C1_local_login loginDb { user := none } "alice" "pw").2.2
      { username := "alice", password := some (bcryptHash "pw"), googleId := none }
      (bcryptHash "pw") (by decide) rfl (by decide)

/-- A provider-issued profile assertion (already verified by Google before
the callback runs): provider id and display name. -/
structure GoogleProfile where
  id : String
  displayName : String
deriving DecidableEq

/-- Outcome of the Google verify callback: `cb(null, user)` or `cb(err)`. -/
inductive GoogleAuthResult where
  | success (user : User)
  | error
deriving DecidableEq

/-- The GoogleStrategy verify callback of `src/index.js` lines 153-175 (same
code in `part_002` lines 96-110): look the user up by google id; when found,
return it; when absent, save a new user whose username is the profile's
display name and whose googleId is the profile id (no password); a failing
save (for instance a duplicate username) reaches the `catch` and `cb(err)`. -/
def googleVerify (db : List User) (profile : GoogleProfile) :
    GoogleAuthResult × List User :=
  match findUserByGoogleId db profile.id with
  | some user => (.success user, db)
  | none =>
    let user : User :=
      { username := profile.displayName, password := none, googleId := some profile.id }
    match saveUser db user with
    | .ok db' => (.success user, db')
    | .error _ => (.error, db)

/-- GET /auth/google/success of `src/index.js` lines 216-225:
`passport.authenticate("google", { successRedirect: "/compose",
failureRedirect: "/login" })` around `googleVerify`; `cb(null, user)` logs
the user into the session and redirects to /compose, `cb(err)` propagates
the error. -/
def googleCallback (db : List User) (sess : Session) (profile : GoogleProfile) :
    HttpResponse × Session × List User :=
  match googleVerify db profile with
  | (.success user, db') => (.redirect "/compose", { user := some user.username }, db')
  | (.error, db') => (.serverError "authentication error", sess, db')

/-- The GoogleStrategy verify callback of `part_003` lines 84-99: identical
to `googleVerify` except that `cb` is only invoked inside the
user-not-found branch, so when the user is found the callback returns
without completing (`none`): the request never resumes. -/
def googleVerifyOld (db : List User) (profile : GoogleProfile) :
    Option GoogleAuthResult × List User :=
  match findUserByGoogleId db profile.id with
  | some _ => (none, db)
  | none =>
    let user : User :=
      { username := profile.displayName, password := none, googleId := some profile.id }
    match saveUser db user with
    | .ok db' => (some (.success user), db')
    | .error _ => (some .error, db)

/-- A database whose only user already holds the username "Alice" (with a
password, no google id). -/
def c2Db : List User :=
  [{ username := "Alice", password := some (bcryptHash "secret"), googleId := none }]

/-- C2 counterexample: a verified profile (id "gid-1", display name "Alice")
with no user under that provider id does NOT complete with an authenticated
session: creating the user violates the unique-username constraint
(`username: unique` in `userSchema`), the save rejects, and the callback
ends in `cb(err)` with the store unchanged — the claim promises
Authenticated in the newly-created case. -/
theorem C2_counterexample :
    findUserByGoogleId c2Db "gid-1" = none ∧
    googleCallback c2Db { user := none } { id := "gid-1", displayName := "Alice" } =
      (.serverError "authentication error", { user := none }, c2Db) := by
  decide

/-- Before proving the amended C2 we record that an absent google id means
the uniqueness check on google ids passes. -/
theorem googleIdTaken_eq_false_of_find_none (db : List User) (g : String)
    (h : findUserByGoogleId db g = none) : googleIdTaken db g = false := by
  rw [findUserByGoogleId, List.find?_eq_none] at h
  rw [googleIdTaken]
  simp only [List.any_eq_false]
  exact h

/-- C2 amended: for the main variant's resolver, a found provider id
authenticates that user with the store unchanged; an absent provider id
whose display name is nonempty and does not collide with an existing
username creates the user (display name as username, provider id as
identity key, no password) and authenticates it; when the display name is
already taken the save rejects and the session is not authenticated. -/
theorem C2_google_login_amended (db : List User) (sess : Session) (profile : GoogleProfile) :
    (∀ u, findUserByGoogleId db profile.id = some u →
      googleCallback db sess profile = (.redirect "/compose", { user := some u.username }, db)) ∧
    (findUserByGoogleId db profile.id = none →
      usernameTaken db profile.displayName = false →
      profile.displayName.isEmpty = false →
      googleCallback db sess profile =
        (.redirect "/compose", { user := some profile.displayName },
          db ++ [{ username := profile.displayName, password := none,
                   googleId := some profile.id }])) ∧
    (findUserByGoogleId db profile.id = none →
      usernameTaken db profile.displayName = true →
      googleCallback db sess profile = (.serverError "authentication error", sess, db)) ∧
    (∀ u, findUserByGoogleId db profile.id = some u →
      googleVerifyOld db profile = (none, db)) := by
  refine ⟨fun u hfind => ?_, fun hnone hfree hne => ?_, fun hnone htaken => ?_,
    fun u hfind => ?_⟩
  · simp [googleCallback, googleVerify, hfind]
  · have hid := googleIdTaken_eq_false_of_find_none db profile.id hnone
    simp [googleCallback, googleVerify, saveUser, hnone, hfree, hne, hid]
  · cases hde : profile.displayName.isEmpty <;>
      simp [googleCallback, googleVerify, saveUser, hnone, htaken, hde]
  · simp [googleVerifyOld, hfind]

/-- A database whose only user is a Google-created account. -/
def c2FoundDb : List User :=
  [{ username := "Neo", password := none, googleId := some "gid-9" }]

/-- C2 witness: on concrete databases, a known provider id authenticates the
stored user, and an unknown provider id with a fresh display name creates
and authenticates a new password-less user. -/
theorem C2_google_login_witness :
    googleCallback c2FoundDb { user := none } { id := "gid-9", displayName := "Neo" } =
      (.redirect "/compose", { user := some "Neo" }, c2FoundDb) ∧
    googleCallback [] { user := none } { id := "gid-9", displayName := "Neo" } =
      (.redirect "/compose", { user := some "Neo" },
        [] ++ [{ username := "Neo", password := none, googleId := some "gid-9" }]) := by
  constructor
  · exact (C2_google_login_amended c2FoundDb { user := none }
      { id := "gid-9", displayName := "Neo" }).1
      { username := "Neo", password := none, googleId := some "gid-9" } (by decide)
  · exact (C2_google_login_amended [] { user := none }
      { id := "gid-9", displayName := "Neo" }).2.1 rfl rfl rfl

/-- POST /register of `src/index.js` lines 237-260: hash the password, save
a new user (no google id), redirect to /login on success; any save failure
(in particular the unique-username index) is caught and answered with
HTTP 400 "User registration failed!". -/
def registerPost (db : List User) (username password : String) :
    HttpResponse × List User :=
  match saveUser db { username := username, password := some (bcryptHash password),
                      googleId := none } with
  | .ok db' => (.redirect "/login", db')
  | .error _ => (.badRequest "User registration failed!", db)

/-- C6: registering a fresh username and then registering it again: the
first attempt succeeds, the second hits the storage layer's uniqueness
violation (duplicate key) and is answered 400 with the store unchanged, and
exactly one user with that username exists afterward. -/
theorem C6_register_twice (db : List User) (username p1 p2 : String)
    (hfree : usernameTaken db username = false) (hne : username.isEmpty = false) :
    (registerPost db username p1).1 = .redirect "/login" ∧
    saveUser (registerPost db username p1).2
        { username := username, password := some (bcryptHash p2), googleId := none } =
      .error .duplicateKey ∧
    (registerPost (registerPost db username p1).2 username p2).1 =
      .badRequest "User registration failed!" ∧
    (registerPost (registerPost db username p1).2 username p2).2 =
      (registerPost db username p1).2 ∧
    ((registerPost (registerPost db username p1).2 username p2).2.countP
        (fun u => u.username == username)) = 1 := by
  have hdb1 : (registerPost db username p1).2 =
      db ++ [{ username := username, password := some (bcryptHash p1), googleId := none }] := by
    simp [registerPost, saveUser, hfree, hne]
  have htaken : usernameTaken
      (db ++ [{ username := username, password := some (bcryptHash p1), googleId := none }])
      username = true := by
    rw [usernameTaken, List.any_append]
    simp
  have hcount0 : db.countP (fun u => u.username == username) = 0 := by
    rw [List.countP_eq_zero]
    intro u hu
    rw [usernameTaken, List.any_eq_false] at hfree
    exact hfree u hu
  refine ⟨?_, ?_, ?_, ?_, ?_⟩
  · simp [registerPost, saveUser, hfree, hne]
  · rw [hdb1]
    simp [saveUser, htaken, hne]
  · rw [hdb1]
    simp [registerPost, saveUser, htaken, hne]
  · rw [hdb1]
    simp [registerPost, saveUser, htaken, hne]
  · rw [hdb1]
    have h2 : (registerPost
        (db ++ [{ username := username, password := some (bcryptHash p1), googleId := none }])
        username p2).2 =
        db ++ [{ username := username, password := some (bcryptHash p1), googleId := none }] := by
      simp [registerPost, saveUser, htaken, hne]
    rw [h2, List.countP_append, hcount0]
    simp

/-- C6 witness: registering "alice" twice against an empty store: the first
succeeds, the second fails as a duplicate and exactly one "alice" exists. -/
theorem C6_register_twice_witness :
    (registerPost [] "alice" "pw1").1 = .redirect "/login" ∧
    saveUser (registerPost [] "alice" "pw1").2
        { username := "alice", password := some (bcryptHash "pw2"), googleId := none } =
      .error .duplicateKey ∧
    (registerPost (registerPost [] "alice" "pw1").2 "alice" "pw2").1 =
      .badRequest "User registration failed!" ∧
    (registerPost (registerPost [] "alice" "pw1").2 "alice" "pw2").2 =
      (registerPost [] "alice" "pw1").2 ∧
    ((registerPost (registerPost [] "alice" "pw1").2 "alice" "pw2").2.countP
        (fun u => u.username == "alice")) = 1 :=
  C6_register_twice [] "alice" "pw1" "pw2" rfl rfl

/-- A blog post of `blogSchema` (identical in `src/index.js`, `part_001`,
`part_002` and `part_003`): title (required, `minLength: 20`), content
(required, `minLength: 100`); `id` stands for the Mongoose-assigned unique
document id, handed out by the store's fresh-id counter. -/
structure Blog where
  id : Nat
  title : String
  content : String
deriving DecidableEq

/-- The Mongoose validator of `blogSchema`: `minLength: 20` on the title and
`minLength: 100` on the content (lengths meeting the minimum also satisfy
`required`). -/
def blogValid (title content : String) : Bool :=
  20 ≤ title.length && 100 ≤ content.length

/-- The persisted blog collection plus the fresh-id counter standing for
Mongoose's document-id assignment. -/
structure BlogStore where
  blogs : List Blog
  nextId : Nat
deriving DecidableEq

/-- Mongoose `new Blog({ title, content }).save()`: runs the schema
validators, then inserts with a fresh id. -/
def saveBlog (s : BlogStore) (title content : String) : Except SaveError BlogStore :=
  if blogValid title content then
    .ok { blogs := s.blogs ++ [{ id := s.nextId, title := title, content := content }],
          nextId := s.nextId + 1 }
  else .error .validationFailed

/-- POST /compose of `src/index.js` lines 295-312 (same body in `part_002`
lines 275-284 and `part_003` lines 185-194): save the new blog and redirect
to /blogs; a failing save is answered 400 "Failed to create blog post!". -/
def composePost (s : BlogStore) (title content : String) : HttpResponse × BlogStore :=
  match saveBlog s title content with
  | .ok s' => (.redirect "/blogs", s')
  | .error _ => (.badRequest "Failed to create blog post!", s)

/-- What GET /blogs renders: the fetched records when any exist, otherwise
the literal sentinel (`blogs.length > 0 ? blogs : "No Blogs Found"`). -/
inductive BlogsView where
  | records (blogs : List Blog)
  | noBlogsFound
deriving DecidableEq

/-- GET /blogs of `src/index.js` lines 315-334. -/
def listBlogs (s : BlogStore) : BlogsView :=
  if 0 < s.blogs.length then .records s.blogs else .noBlogsFound

/-- Mongoose `Blog.findByIdAndDelete(id)`: removes the document with that
id (document ids are unique) and leaves everything else in place. -/
def findByIdAndDelete (s : BlogStore) (id : Nat) : BlogStore :=
  { s with blogs := s.blogs.filter (fun b => b.id != id) }

/-- GET /delete/:deleteId of `src/index.js` lines 337-348: delete by id and
redirect to /blogs, with no found/not-found distinction. -/
def deleteBlogHandler (s : BlogStore) (id : Nat) : HttpResponse × BlogStore :=
  (.redirect "/blogs", findByIdAndDelete s id)

/-- A post of the in-memory variant (`part_002`, second file): `data.push({
id: uuidv4(), ...req.body })` — an id from the uuid library plus whatever
title/content the request body carried. -/
structure MemPost where
  id : String
  title : String
  content : String
deriving DecidableEq

/-- POST /compose of the in-memory variant (`part_002` lines 343-348):
pushes the request body onto the global `data` array with a fresh uuid —
no validation, no authentication, nothing rejected. -/
def memComposePost (data : List MemPost) (id title content : String) : List MemPost :=
  data ++ [{ id := id, title := title, content := content }]

/-- What the in-memory variant's GET /blogs renders
(`data.length > 0 ? data : "No Blogs Found"`). -/
inductive MemBlogsView where
  | records (blogs : List MemPost)
  | noBlogsFound
deriving DecidableEq

/-- GET /blogs of the in-memory variant (`part_002` lines 350-356). -/
def memListBlogs (data : List MemPost) : MemBlogsView :=
  if 0 < data.length then .records data else .noBlogsFound

/-- C3 counterexample: the in-memory variant's create accepts a post whose
title has 2 units and whose content has 5 — it is persisted, not rejected,
and it appears in the next list() — while the claim promises rejection of
every such write across the repository. -/
theorem C3_counterexample :
    "ab".length < 20 ∧
    memComposePost [] "uuid-1" "ab" "short" =
      [{ id := "uuid-1", title := "ab", content := "short" }] ∧
    memListBlogs (memComposePost [] "uuid-1" "ab" "short") =
      .records [{ id := "uuid-1", title := "ab", content := "short" }] := by
  decide

/-- C3 amended: in the Mongoose-backed variants a create whose title has
fewer than 20 units or whose content has fewer than 100 is rejected by the
schema validator before persistence (ValidationError, HTTP 400), the store
is unchanged, and every subsequent list() renders exactly what it rendered
before; the in-memory variant performs no validation and stores such posts
(see the counterexample). -/
theorem C3_min_length_amended (s : BlogStore) (title content : String)
    (h : title.length < 20 ∨ content.length < 100) :
    saveBlog s title content = .error .validationFailed ∧
    composePost s title content = (.badRequest "Failed to create blog post!", s) ∧
    listBlogs (composePost s title content).2 = listBlogs s := by
  have hv : blogValid title content = false := by
    rw [blogValid, Bool.and_eq_false_iff]
    rcases h with h | h
    · exact Or.inl (by simpa using Nat.not_le.mpr h)
    · exact Or.inr (by simpa using Nat.not_le.mpr h)
  refine ⟨?_, ?_, ?_⟩
  · simp [saveBlog, hv]
  · simp [composePost, saveBlog, hv]
  · simp [composePost, saveBlog, hv]

/-- C3 witness: a concrete short post is rejected with the store (one valid
post, next id 1) unchanged. -/
theorem C3_min_length_witness :
    saveBlog { blogs := [], nextId := 0 } "ab" "short" = .error .validationFailed ∧
    composePost { blogs := [], nextId := 0 } "ab" "short" =
      (.badRequest "Failed to create blog post!", { blogs := [], nextId := 0 }) ∧
    listBlogs (composePost { blogs := [], nextId := 0 } "ab" "short").2 =
      listBlogs { blogs := [], nextId := 0 } :=
  C3_min_length_amended { blogs := [], nextId := 0 } "ab" "short" (by decide)

/-- C5: deleting an id that no stored post carries leaves the post count
unchanged (in fact the whole store unchanged), and the handler's response is
the same redirect to /blogs that the found case produces. -/
theorem C5_delete_missing (s : BlogStore) (id : Nat)
    (h : ∀ b ∈ s.blogs, b.id ≠ id) :
    deleteBlogHandler s id = (.redirect "/blogs", s) ∧
    (deleteBlogHandler s id).2.blogs.length = s.blogs.length ∧
    (∀ s2 id2, (deleteBlogHandler s2 id2).1 = .redirect "/blogs") := by
  have hfilter : s.blogs.filter (fun b => b.id != id) = s.blogs := by
    rw [List.filter_eq_self]
    intro b hb
    simpa using h b hb
  refine ⟨?_, ?_, fun s2 id2 => rfl⟩
  · simp [deleteBlogHandler, findByIdAndDelete, hfilter]
  · simp [deleteBlogHandler, findByIdAndDelete, hfilter]

/-- C5 witness: deleting absent id 7 from a store holding a single post with
id 0 changes nothing and redirects exactly like a successful delete. -/
theorem C5_delete_missing_witness :
    deleteBlogHandler { blogs := [{ id := 0, title := "t", content := "c" }], nextId := 1 } 7 =
      (.redirect "/blogs", { blogs := [{ id := 0, title := "t", content := "c" }], nextId := 1 }) ∧
    (deleteBlogHandler { blogs := [{ id := 0, title := "t", content := "c" }], nextId := 1 } 7).2.blogs.length =
      ({ blogs := [{ id := 0, title := "t", content := "c" }], nextId := 1 } : BlogStore).blogs.length ∧
    (∀ s2 id2, (deleteBlogHandler s2 id2).1 = .redirect "/blogs") :=
  C5_delete_missing { blogs := [{ id := 0, title := "t", content := "c" }], nextId := 1 } 7
    (by decide)

/-- What the `isAuthenticated` middleware decides: pass the request on to the
handler (`next()`) or redirect to /login. -/
inductive GuardDecision where
  | allow
  | redirectLogin
deriving DecidableEq

/-- The `isAuthenticated` middleware of `src/index.js` lines 198-205 (same
code in `part_002` lines 194-197 and `part_003` lines 116-121): a pure
function of `req.isAuthenticated()` — the session's authentication state —
that either admits the request or redirects to /login. -/
def isAuthenticated (authenticated : Bool) : GuardDecision :=
  if authenticated then .allow else .redirectLogin

/-- The variants of the repository, one per source file. -/
inductive Variant where
  | main
  | otp
  | dbNoAuth
  | inMemory
  | older
deriving DecidableEq

/-- The HTTP endpoints registered across the variants. -/
inductive Endpoint where
  | homeGet
  | registerGet
  | registerPostE
  | loginGet
  | loginPostE
  | authGoogle
  | authGoogleSuccess
  | composeGet
  | composePostE
  | blogsGet
  | deleteGet
  | sendOtpPostE
  | verifyOtpGet
  | verifyOtpPostE
deriving DecidableEq

/-- The routes each variant registers (from every `app.get` / `app.route`
registration in the corresponding source file). -/
def endpoints : Variant → List Endpoint
  | .main => [.authGoogle, .authGoogleSuccess, .registerGet, .registerPostE, .loginGet,
      .loginPostE, .homeGet, .composeGet, .composePostE, .blogsGet, .deleteGet]
  | .otp => [.sendOtpPostE, .verifyOtpGet, .verifyOtpPostE, .authGoogle, .authGoogleSuccess,
      .registerGet, .registerPostE, .loginGet, .loginPostE, .homeGet, .composeGet,
      .composePostE, .blogsGet, .deleteGet]
  | .dbNoAuth => [.homeGet, .composeGet, .composePostE, .blogsGet, .deleteGet]
  | .inMemory => [.homeGet, .composeGet, .composePostE, .blogsGet]
  | .older => [.authGoogle, .authGoogleSuccess, .registerGet, .registerPostE, .loginGet,
      .loginPostE, .homeGet, .composeGet, .composePostE, .blogsGet, .deleteGet]

/-- Whether the route is registered with the `isAuthenticated` middleware in
front of its handler. In `main` (`src/index.js`), `otp` (`part_002`, first
file) and `older` (`part_003`) the compose, blogs and delete routes carry
the guard; `part_001` and the in-memory variant register every route bare. -/
def guardedBy : Variant → Endpoint → Bool
  | .main, .composeGet | .main, .composePostE | .main, .blogsGet | .main, .deleteGet => true
  | .otp, .composeGet | .otp, .composePostE | .otp, .blogsGet | .otp, .deleteGet => true
  | .older, .composeGet | .older, .composePostE | .older, .blogsGet | .older, .deleteGet => true
  | _, _ => false

/-- The content-mutating endpoints in the claim's sense: create
(POST /compose) and deleteById (GET /delete/:deleteId). -/
def mutatesContent : Endpoint → Bool
  | .composePostE | .deleteGet => true
  | _ => false

/-- Running a route: when the route carries the guard, the middleware runs
first and an unauthenticated request is answered with the redirect without
the handler ever executing; otherwise the handler runs directly. -/
def runGuarded {σ : Type} (guarded : Bool) (authenticated : Bool)
    (handler : σ → HttpResponse × σ) (st : σ) : HttpResponse × σ :=
  if guarded then
    match isAuthenticated authenticated with
    | .allow => handler st
    | .redirectLogin => (.redirect "/login", st)
  else handler st

/-- C7 counterexample: POST /compose of the in-memory variant is a
content-mutating endpoint registered without the guard, and its handler
persists the post with no session consulted at all — so an
unauthenticated request does reach a content-mutating operation, contrary to
the claim's "for every variant". (`part_001` likewise leaves /compose and
/delete unguarded.) -/
theorem C7_counterexample :
    mutatesContent .composePostE = true ∧
    Endpoint.composePostE ∈ endpoints .inMemory ∧
    guardedBy .inMemory .composePostE = false ∧
    guardedBy .dbNoAuth .composePostE = false ∧
    guardedBy .dbNoAuth .deleteGet = false ∧
    memComposePost [] "uuid-1" "t" "c" = [{ id := "uuid-1", title := "t", content := "c" }] := by
  decide

/-- C7 amended: the guard is a pure function from the session's
authentication state to allow-or-redirect("/login"); in the session-based
variants (`src/index.js`, the OTP variant, `part_003`) every registered
content-mutating endpoint carries it, and an unauthenticated request to a
guarded route is redirected without the handler running (the state is
untouched); in `part_001` and the in-memory variant the content-mutating
routes are registered without any guard. -/
theorem C7_guard_amended :
    (∀ auth, isAuthenticated auth = .allow ∨ isAuthenticated auth = .redirectLogin) ∧
    (∀ auth, isAuthenticated auth = .allow ↔ auth = true) ∧
    (∀ v e, (v = Variant.main ∨ v = Variant.otp ∨ v = Variant.older) →
      e ∈ endpoints v → mutatesContent e = true → guardedBy v e = true) ∧
    (∀ (σ : Type) (handler : σ → HttpResponse × σ) (st : σ),
      runGuarded true false handler st = (.redirect "/login", st)) := by
  refine ⟨fun auth => ?_, fun auth => ?_, fun v e hv he hm => ?_, fun σ handler st => rfl⟩
  · cases auth
    · exact Or.inr rfl
    · exact Or.inl rfl
  · cases auth <;> simp [isAuthenticated]
  · rcases hv with rfl | rfl | rfl <;> cases e <;> first | rfl | exact absurd hm (by decide)

/-- C7 witness: POST /compose of the main variant is guarded, and an
unauthenticated request to a guarded route is redirected with a concrete
blog store left untouched. -/
theorem C7_guard_witness :
    guardedBy .main .composePostE = true ∧
    runGuarded true false (fun s : BlogStore => composePost s "t" "c")
        { blogs := [], nextId := 0 } =
      (.redirect "/login", { blogs := [], nextId := 0 }) :=
  ⟨C7_guard_amended.2.2.1 .main .composePostE (Or.inl rfl) (by decide) (by decide),
   C7_guard_amended.2.2.2 BlogStore (fun s => composePost s "t" "c") { blogs := [], nextId := 0 }⟩

/-- A JavaScript request-body value as it reaches the OTP comparison: a
string (urlencoded forms deliver strings) or a number (`express.json()`
delivers JSON numbers; the stored otp is a number). -/
inductive JSVal where
  | str (s : String)
  | num (n : Int)
deriving DecidableEq

/-- JavaScript falsiness of a body value (`!otp`): the empty string and the
number 0 (a missing field is falsy too and is embedded as the empty
string). -/
def jsFalsy : JSVal → Bool
  | .str s => s.isEmpty
  | .num n => n == 0

/-- JavaScript strict equality (`===`) between body values: values of
different types are never strictly equal. -/
def strictEq : JSVal → JSVal → Bool
  | .str a, .str b => a == b
  | .num a, .num b => a == b
  | _, _ => false

/-- An entry of the OTP variant's `OTP_STORE`
(`OTP_STORE[phone] = { otp, username, password }`, `part_002` line 139):
the numeric challenge plus the held registration data. -/
structure Challenge where
  otp : Int
  username : String
  password : String
deriving DecidableEq

/-- JavaScript property read `OTP_STORE[phone]`. -/
def jsGet (store : List (String × Challenge)) (k : String) : Option Challenge :=
  (store.find? (fun p => p.1 == k)).map (fun p => p.2)

/-- JavaScript property assignment `OTP_STORE[phone] = v`: an existing key
keeps its position and gets the new value, a new key is appended. -/
def jsSet (store : List (String × Challenge)) (k : String) (v : Challenge) :
    List (String × Challenge) :=
  match store with
  | [] => [(k, v)]
  | p :: rest => if p.1 == k then (k, v) :: rest else p :: jsSet rest k v

/-- JavaScript `delete OTP_STORE[phone]`. -/
def jsDelete (store : List (String × Challenge)) (k : String) :
    List (String × Challenge) :=
  store.filter (fun p => p.1 != k)

/-- The keys of the challenge store. -/
def challengeKeys (store : List (String × Challenge)) : List String :=
  store.map (fun p => p.1)

/-- The `Math.floor(100000 + Math.random() * 900000)` of `part_002` line
135, parametrised by the value `q` that `Math.random()` returned
(a real draw from [0, 1), embedded as a rational). -/
def generateOtp (q : ℚ) : Int :=
  Int.floor ((100000 : ℚ) + q * 900000)

/-- A user record of the OTP variant's `userSchema` (`part_002` lines
57-66): additionally a required phone number and the `isPhoneVerified` flag
whose schema default is `false`. -/
structure OtpUser where
  username : String
  password : Option Hash
  googleId : Option String
  phone : Option String
  isPhoneVerified : Bool
deriving DecidableEq

/-- Whether some stored user of the OTP variant already has this username. -/
def otpUsernameTaken (users : List OtpUser) (username : String) : Bool :=
  users.any (fun u => u.username == username)

/-- Mongoose `save` for the OTP variant's users: `username` and `phone` are
`required`, `username` is `unique`, `googleId` is `unique` when present. -/
def saveOtpUser (users : List OtpUser) (u : OtpUser) :
    Except SaveError (List OtpUser) :=
  if u.username.isEmpty || u.phone.isNone then .error .validationFailed
  else if otpUsernameTaken users u.username then .error .duplicateKey
  else
    match u.googleId with
    | some g =>
      if users.any (fun v => v.googleId == some g) then .error .duplicateKey
      else .ok (users ++ [u])
    | none => .ok (users ++ [u])

/-- The session of the OTP variant: the `isPhoneVerified` field that
POST /register reads (an absent field reads as `false`), and the passport
login binding. -/
structure OtpSession where
  isPhoneVerified : Bool
  user : Option String
deriving DecidableEq

/-- The whole mutable state of the OTP variant: the users collection, the
global `OTP_STORE`, the blogs collection, and one client's session. -/
structure OtpState where
  users : List OtpUser
  otpStore : List (String × Challenge)
  store : BlogStore
  session : OtpSession
deriving DecidableEq

/-- POST /send-otp (`part_002` lines 128-153): reject when any field is
falsy; otherwise generate the otp, store the challenge under the phone
(overwriting any earlier one), then ask Twilio to send the text —
`twilioOk` says whether that external call succeeded; the store update has
already happened either way, only the response differs. -/
def sendOtpPost (st : OtpState) (phone username password : String) (q : ℚ)
    (twilioOk : Bool) : HttpResponse × OtpState :=
  if phone.isEmpty || username.isEmpty || password.isEmpty then
    (.badRequest "All fields are required", st)
  else
    let c : Challenge :=
      { otp := generateOtp q, username := username, password := password }
    let st' := { st with otpStore := jsSet st.otpStore phone c }
    if twilioOk then (.redirect ("/verify-otp?phone=" ++ phone), st')
    else (.serverError "Failed to send OTP", st')

/-- POST /verify-otp (`part_002` lines 167-191): reject falsy fields; when
`OTP_STORE[phone]` exists and its otp is strictly equal (`===`) to the
submitted value, hash the held password, save the user (note: without
setting `isPhoneVerified`, which therefore defaults to `false`), delete the
challenge and answer 200; any non-match answers 400 "Invalid OTP". The save
runs outside any try/catch, so a rejecting save (duplicate username) leaves
the request without a response (`none`) and the challenge in place. -/
def verifyOtpPost (st : OtpState) (phone : String) (otp : JSVal) :
    Option HttpResponse × OtpState :=
  if phone.isEmpty || jsFalsy otp then
    (some (.badRequest "Phone and OTP are required"), st)
  else
    match jsGet st.otpStore phone with
    | some c =>
      if strictEq (.num c.otp) otp then
        match saveOtpUser st.users
            { username := c.username, password := some (bcryptHash c.password),
              googleId := none, phone := some phone, isPhoneVerified := false } with
        | .ok users' =>
          (some (.okJson "User registered successfully"),
            { st with users := users', otpStore := jsDelete st.otpStore phone })
        | .error _ => (none, st)
      else (some (.badRequest "Invalid OTP"), st)
    | none => (some (.badRequest "Invalid OTP"), st)

/-- POST /register of the OTP variant (`part_002` lines 224-249): without
`req.session.isPhoneVerified` the request is answered 400 "Phone number not
verified"; otherwise the user is saved with the flag set, a duplicate key
(`err.code === 11000`) answers 400 "Username already exists!". -/
def registerPostOtp (st : OtpState) (username password phone : String) :
    HttpResponse × OtpState :=
  if !st.session.isPhoneVerified then (.badRequest "Phone number not verified", st)
  else
    match saveOtpUser st.users
        { username := username, password := some (bcryptHash password),
          googleId := none, phone := some phone, isPhoneVerified := true } with
    | .ok users' => (.redirect "/login", { st with users := users' })
    | .error .duplicateKey => (.badRequest "Username already exists!", st)
    | .error .validationFailed => (.badRequest "User registration failed!", st)

/-- POST /login of the OTP variant (`part_002` lines 256-261): the same
LocalStrategy around the OTP variant's users; success binds the session to
the user. -/
def loginPostOtp (st : OtpState) (username password : String) :
    HttpResponse × OtpState :=
  match st.users.find? (fun u => u.username == username) with
  | none => (.redirect "/login", st)
  | some u =>
    match u.password with
    | none => (.serverError "authentication error", st)
    | some h =>
      if bcryptCompare password h then
        (.redirect "/compose",
          { st with session := { st.session with user := some u.username } })
      else (.redirect "/login", st)

/-- GET /auth/google/success of the OTP variant (`part_002` lines 89-112 and
205-211): the Google verify callback against the OTP variant's users. A
created Google user carries no phone, so the schema's `required` phone
rejects the save and the callback ends in `cb(err)`. -/
def googleCallbackOtp (st : OtpState) (profile : GoogleProfile) :
    HttpResponse × OtpState :=
  match st.users.find? (fun u => u.googleId == some profile.id) with
  | some u =>
    (.redirect "/compose", { st with session := { st.session with user := some u.username } })
  | none =>
    match saveOtpUser st.users
        { username := profile.displayName, password := none,
          googleId := some profile.id, phone := none, isPhoneVerified := false } with
    | .ok users' =>
      (.redirect "/compose",
        { st with users := users',
                  session := { st.session with user := some profile.displayName } })
    | .error _ => (.serverError "authentication error", st)

/-- POST /compose of the OTP variant (`part_002` lines 275-284), behind the
`isAuthenticated` guard. -/
def composePostOtp (st : OtpState) (title content : String) :
    HttpResponse × OtpState :=
  match isAuthenticated st.session.user.isSome with
  | .redirectLogin => (.redirect "/login", st)
  | .allow =>
    match saveBlog st.store title content with
    | .ok s' => (.redirect "/blogs", { st with store := s' })
    | .error _ => (.badRequest "Failed to create blog post!", st)

/-- GET /delete/:deleteId of the OTP variant (`part_002` lines 299-306),
behind the `isAuthenticated` guard. -/
def deleteBlogOtp (st : OtpState) (id : Nat) : HttpResponse × OtpState :=
  match isAuthenticated st.session.user.isSome with
  | .redirectLogin => (.redirect "/login", st)
  | .allow => (.redirect "/blogs", { st with store := findByIdAndDelete st.store id })

/-- One incoming request to a state-touching route of the OTP variant. -/
inductive OtpEvent where
  | sendOtp (phone username password : String) (q : ℚ) (twilioOk : Bool)
  | verifyOtp (phone : String) (otp : JSVal)
  | register (username password phone : String)
  | login (username password : String)
  | googleLogin (profile : GoogleProfile)
  | compose (title content : String)
  | deleteBlog (id : Nat)

/-- The state transition of one request (the response is dropped). -/
def otpStep (st : OtpState) (e : OtpEvent) : OtpState :=
  match e with
  | .sendOtp phone username password q ok => (sendOtpPost st phone username password q ok).2
  | .verifyOtp phone otp => (verifyOtpPost st phone otp).2
  | .register u p ph => (registerPostOtp st u p ph).2
  | .login u p => (loginPostOtp st u p).2
  | .googleLogin pr => (googleCallbackOtp st pr).2
  | .compose t c => (composePostOtp st t c).2
  | .deleteBlog i => (deleteBlogOtp st i).2

/-- The server's initial state: empty collections, empty `OTP_STORE`, a
fresh session (no field set). -/
def otpInit : OtpState :=
  { users := [], otpStore := [], store := { blogs := [], nextId := 0 },
    session := { isPhoneVerified := false, user := none } }

/-- The state reached after a sequence of requests from boot. -/
def otpRun (evs : List OtpEvent) : OtpState :=
  evs.foldl otpStep otpInit

/-- Assigning a key makes it readable: `OTP_STORE[k] = v` followed by
`OTP_STORE[k]` yields `v`. -/
theorem jsGet_jsSet_self (s : List (String × Challenge)) (k : String) (v : Challenge) :
    jsGet (jsSet s k v) k = some v := by
  induction s with
  | nil => simp [jsSet, jsGet]
  | cons p rest ih =>
    by_cases h : (p.1 == k) = true
    · simp [jsSet, jsGet, h]
    · have h' : (p.1 == k) = false := by simpa using h
      simp only [jsSet, h', Bool.false_eq_true, if_false]
      rw [jsGet, List.find?_cons_of_neg _ (by simp [h'])]
      exact ih

/-- Deleting a key makes it unreadable. -/
theorem jsGet_jsDelete_self (s : List (String × Challenge)) (k : String) :
    jsGet (jsDelete s k) k = none := by
  rw [jsGet]
  have hfind : (jsDelete s k).find? (fun p => p.1 == k) = none := by
    rw [List.find?_eq_none]
    intro p hp
    have hmem := (List.mem_filter.mp hp).2
    simp only [bne_iff_ne, ne_eq, decide_eq_true_eq] at hmem
    simp only [beq_iff_eq]
    exact hmem
  rw [hfind]
  rfl

/-- The keys after a JS assignment: unchanged when the key was present,
extended by the key when it was absent. -/
theorem challengeKeys_jsSet (s : List (String × Challenge)) (k : String) (v : Challenge) :
    challengeKeys (jsSet s k v) =
      if s.any (fun p => p.1 == k) then challengeKeys s
      else challengeKeys s ++ [k] := by
  induction s with
  | nil => simp [jsSet, challengeKeys]
  | cons p rest ih =>
    simp only [challengeKeys] at ih ⊢
    by_cases h : (p.1 == k) = true
    · have hk : p.1 = k := by simpa using h
      simp [jsSet, h, hk]
    · have h' : (p.1 == k) = false := by
        simp only [Bool.not_eq_true] at h
        exact h
      by_cases ha : rest.any (fun p => p.1 == k) = true
      · simp [jsSet, h', ha, ih]
      · have ha' : rest.any (fun p => p.1 == k) = false := by
          simp only [Bool.not_eq_true] at ha
          exact ha
        simp [jsSet, h', ha', ih]

/-- A JS assignment keeps the store's keys duplicate-free. -/
theorem challengeKeys_jsSet_nodup (s : List (String × Challenge)) (k : String)
    (v : Challenge) (h : (challengeKeys s).Nodup) :
    (challengeKeys (jsSet s k v)).Nodup := by
  rw [challengeKeys_jsSet]
  by_cases ha : s.any (fun p => p.1 == k) = true
  · simpa [ha] using h
  · have ha' : s.any (fun p => p.1 == k) = false := by
      simp only [Bool.not_eq_true] at ha
      exact ha
    have hk : k ∉ challengeKeys s := by
      intro hmem
      obtain ⟨p, hp, hpk⟩ := List.mem_map.mp hmem
      rw [List.any_eq_false] at ha'
      exact absurd (by simp [hpk]) (ha' p hp)
    simp only [ha', Bool.false_eq_true, if_false]
    rw [List.nodup_append]
    exact ⟨h, List.nodup_singleton k, by simpa [List.disjoint_singleton] using hk⟩

/-- A JS delete keeps the store's keys duplicate-free. -/
theorem challengeKeys_jsDelete_nodup (s : List (String × Challenge)) (k : String)
    (h : (challengeKeys s).Nodup) : (challengeKeys (jsDelete s k)).Nodup := by
  have hsub : List.Sublist (challengeKeys (jsDelete s k)) (challengeKeys s) := by
    simp only [challengeKeys, jsDelete]
    exact List.Sublist.map (fun p => p.1) (List.filter_sublist s)
  exact List.Nodup.sublist hsub h

/-- No request handler of the OTP variant writes the session field
`isPhoneVerified`: every transition preserves it. -/
theorem otpStep_session_isPhoneVerified (st : OtpState) (e : OtpEvent) :
    (otpStep st e).session.isPhoneVerified = st.session.isPhoneVerified := by
  cases e <;>
    simp only [otpStep, sendOtpPost, verifyOtpPost, registerPostOtp, loginPostOtp,
      googleCallbackOtp, composePostOtp, deleteBlogOtp] <;>
    (repeat' split) <;> rfl

/-- Every request handler of the OTP variant keeps the challenge store's
keys duplicate-free. -/
theorem otpStep_challengeKeys_nodup (st : OtpState) (e : OtpEvent)
    (h : (challengeKeys st.otpStore).Nodup) :
    (challengeKeys (otpStep st e).otpStore).Nodup := by
  cases e <;>
    simp only [otpStep, sendOtpPost, verifyOtpPost, registerPostOtp, loginPostOtp,
      googleCallbackOtp, composePostOtp, deleteBlogOtp] <;>
    (repeat' split) <;>
    first
      | exact h
      | exact challengeKeys_jsSet_nodup _ _ _ h
      | exact challengeKeys_jsDelete_nodup _ _ h

/-- The `isPhoneVerified` session field stays `false` along any run. -/
theorem foldl_otpStep_isPhoneVerified (evs : List OtpEvent) (st : OtpState)
    (h : st.session.isPhoneVerified = false) :
    (evs.foldl otpStep st).session.isPhoneVerified = false := by
  induction evs generalizing st with
  | nil => exact h
  | cons e rest ih =>
    exact ih (otpStep st e) (by rw [otpStep_session_isPhoneVerified]; exact h)

/-- Duplicate-free challenge keys along any run. -/
theorem foldl_otpStep_challengeKeys_nodup (evs : List OtpEvent) (st : OtpState)
    (h : (challengeKeys st.otpStore).Nodup) :
    (challengeKeys ((evs.foldl otpStep st).otpStore)).Nodup := by
  induction evs generalizing st with
  | nil => exact h
  | cons e rest ih =>
    exact ih (otpStep st e) (otpStep_challengeKeys_nodup st e h)

/-- C9: in the OTP variant the user-creating branch of POST /register is
unreachable: no handler ever sets `req.session.isPhoneVerified` (in
particular POST /verify-otp leaves the session untouched), so in every
reachable state the field is still `false` and POST /register answers 400
"Phone number not verified" leaving the state unchanged. -/
theorem C9_register_unreachable (evs : List OtpEvent) (username password phone : String) :
    (otpRun evs).session.isPhoneVerified = false ∧
    registerPostOtp (otpRun evs) username password phone =
      (.badRequest "Phone number not verified", otpRun evs) ∧
    (∀ st ph code, (verifyOtpPost st ph code).2.session = st.session) := by
  have hinv : (otpRun evs).session.isPhoneVerified = false :=
    foldl_otpStep_isPhoneVerified evs otpInit rfl
  refine ⟨hinv, ?_, fun st ph code => ?_⟩
  · simp [registerPostOtp, hinv]
  · simp only [verifyOtpPost]
    (repeat' split) <;> rfl

/-- C10: at every reachable state of the OTP variant there is at most one
pending challenge per phone number (the store's keys are duplicate-free);
moreover a send-otp assignment overwrites the phone's entry (reading the key
afterwards yields exactly the new challenge) and a verify-otp delete removes
it (reading afterwards yields nothing). -/
theorem C10_challenge_unique (evs : List OtpEvent) :
    (challengeKeys (otpRun evs).otpStore).Nodup ∧
    (∀ s k v, jsGet (jsSet s k v) k = some v) ∧
    (∀ s k, jsGet (jsDelete s k) k = none) :=
  ⟨foldl_otpStep_challengeKeys_nodup evs otpInit List.nodup_nil,
   jsGet_jsSet_self, jsGet_jsDelete_self⟩

/-- A state holding one pending challenge for phone "111". -/
def c4BugState : OtpState :=
  { otpInit with otpStore := [("111", { otp := 123456, username := "bob", password := "pw" })] }

/-- C4 counterexample: submitting the exactly-matching code does create one
user and delete the pending challenge, but the created user's verification
flag is `false` — the handler saves `{ username, password: hash, phone }`
without `isPhoneVerified`, so the schema default applies — while the claim
promises a user "with verification flag set". -/
theorem C4_counterexample :
    (verifyOtpPost c4BugState "111" (.num 123456)).1 =
      some (.okJson "User registered successfully") ∧
    (verifyOtpPost c4BugState "111" (.num 123456)).2.otpStore = [] ∧
    (verifyOtpPost c4BugState "111" (.num 123456)).2.users =
      [{ username := "bob", password := some (bcryptHash "pw"), googleId := none,
         phone := some "111", isPhoneVerified := false }] := by
  refine ⟨rfl, rfl, rfl⟩

/-- C4 amended: for a pending challenge stored under a phone (with a
nonempty phone, a non-falsy submitted code, a challenge username that is
nonempty and not already taken): a strictly-equal (`===`) submitted code
creates exactly one user — with the verification flag left at its default
`false` — deletes the pending challenge (the phone no longer resolves) and
answers 200; a non-matching code leaves the state entirely unchanged and
answers 400 "Invalid OTP". -/
theorem C4_otp_verify_amended (st : OtpState) (phone : String) (c : Challenge)
    (code : JSVal) (hc : jsGet st.otpStore phone = some c)
    (hp : phone.isEmpty = false) (hcode : jsFalsy code = false) :
    (strictEq (.num c.otp) code = true →
      otpUsernameTaken st.users c.username = false →
      c.username.isEmpty = false →
      verifyOtpPost st phone code =
        (some (.okJson "User registered successfully"),
          { st with
              users := st.users ++
                [{ username := c.username, password := some (bcryptHash c.password),
                   googleId := none, phone := some phone, isPhoneVerified := false }],
              otpStore := jsDelete st.otpStore phone }) ∧
      jsGet (jsDelete st.otpStore phone) phone = none) ∧
    (strictEq (.num c.otp) code = false →
      verifyOtpPost st phone code = (some (.badRequest "Invalid OTP"), st)) := by
  refine ⟨fun hm hfree hne => ⟨?_, jsGet_jsDelete_self st.otpStore phone⟩, fun hm => ?_⟩
  · simp [verifyOtpPost, hp, hcode, hc, hm, saveOtpUser, hfree, hne]
  · simp [verifyOtpPost, hp, hcode, hc, hm]

/-- A state holding one pending challenge for phone "222". -/
def c4WitnessState : OtpState :=
  { otpInit with otpStore := [("222", { otp := 654321, username := "carol", password := "pw2" })] }

/-- C4 witness: on a concrete state, the matching code registers carol and
consumes the challenge; a wrong code changes nothing and is answered 400. -/
theorem C4_otp_verify_witness :
    (verifyOtpPost c4WitnessState "222" (.num 654321) =
      (some (.okJson "User registered successfully"),
        { c4WitnessState with
            users := c4WitnessState.users ++
              [{ username := "carol", password := some (bcryptHash "pw2"),
                 googleId := none, phone := some "222", isPhoneVerified := false }],
            otpStore := jsDelete c4WitnessState.otpStore "222" }) ∧
      jsGet (jsDelete c4WitnessState.otpStore "222") "222" = none) ∧
    verifyOtpPost c4WitnessState "222" (.num 1) =
      (some (.badRequest "Invalid OTP"), c4WitnessState) :=
  ⟨(C4_otp_verify_amended c4WitnessState "222"
      { otp := 654321, username := "carol", password := "pw2" } (.num 654321)
      rfl rfl rfl).1 rfl rfl rfl,
   (C4_otp_verify_amended c4WitnessState "222"
      { otp := 654321, username := "carol", password := "pw2" } (.num 1)
      rfl rfl rfl).2 rfl⟩

/-- C8: a registration start with nonempty fields and a `Math.random()` draw
q from [0, 1) generates a challenge in the 6-digit range 100000..999999 and
stores it in the pending-challenge store keyed by the phone. -/
theorem C8_otp_range (st : OtpState) (phone username password : String) (q : ℚ)
    (twilioOk : Bool) (h0 : 0 ≤ q) (h1 : q < 1)
    (hp : phone.isEmpty = false) (hu : username.isEmpty = false)
    (hw : password.isEmpty = false) :
    100000 ≤ generateOtp q ∧ generateOtp q ≤ 999999 ∧
    jsGet (sendOtpPost st phone username password q twilioOk).2.otpStore phone =
      some { otp := generateOtp q, username := username, password := password } := by
  have hlow : (100000 : Int) ≤ generateOtp q := by
    rw [generateOtp, Int.le_floor]
    push_cast
    nlinarith
  have hhigh : generateOtp q ≤ 999999 := by
    have h2 : generateOtp q < 1000000 := by
      rw [generateOtp, Int.floor_lt]
      push_cast
      nlinarith
    omega
  have hst : (sendOtpPost st phone username password q twilioOk).2.otpStore =
      jsSet st.otpStore phone
        { otp := generateOtp q, username := username, password := password } := by
    cases twilioOk <;> simp [sendOtpPost, hp, hu, hw]
  refine ⟨hlow, hhigh, ?_⟩
  rw [hst]
  exact jsGet_jsSet_self _ _ _

/-- C8 witness: with the draw q = 1/2 the generated challenge is in range
and lands in the store under the phone. -/
theorem C8_otp_range_witness :
    100000 ≤ generateOtp (1/2) ∧ generateOtp (1/2) ≤ 999999 ∧
    jsGet (sendOtpPost otpInit "555" "u" "p" (1/2) true).2.otpStore "555" =
      some { otp := generateOtp (1/2), username := "u", password := "p" } :=
  C8_otp_range otpInit "555" "u" "p" (1/2) true (by norm_num) (by norm_num) rfl rfl rfl
